import Mathlib

/-!
Shallow embedding of `core/lib/db.py` of the OnlineSchemaChange repository:
the two MySQL connection factories (`default_get_mysql_connection`,
`tcp_get_mysql_connection`) and the connection wrapper classes
(`MySQLBaseConnection`, `MySQLSocketConnection`, `MySQLTCPConnection`).

Modelling conventions:
- The external MySQLdb driver is modelled by a `Handle` (the object
  `MySQLdb.Connect` returns) whose observable behaviour — result sets,
  driver warnings, cursor row counts, affected-row counts — is given by
  concrete functions, and by a `World` carrying `MySQLdb.Connect` itself.
- Python statements with side effects on the driver are recorded as
  explicit `Action` traces; Python exceptions are `Except PyErr`;
  Python `None` and other dynamically typed return values are `PyValue`.
- Python truthiness of an optional string (`if charset:`) and of an
  integer (`if timeout:`) is embedded explicitly.
-/

namespace OSC

/-- A scalar value carried in query args or result cells. -/
inductive PyScalar where
  | int (n : Int)
  | str (s : String)
  deriving DecidableEq, Repr

/-- The optional args tuple passed to cursor execution (`args=None` default). -/
abbrev Args := Option (List PyScalar)

/-- A Python value as observed by these specifications: `None`, a bool,
an int, or a bound-method object carrying the value it would return when
called. -/
inductive PyValue where
  | pynone
  | bool (b : Bool)
  | int (n : Int)
  | boundMethod (callResult : Int)
  deriving DecidableEq, Repr

/-- A Python exception escaping one of the embedded operations. -/
inductive PyErr where
  /-- `AttributeError`: attribute access on `None` (e.g. `self.conn.cursor`
  when `self.conn is None`). -/
  | attributeErrorNone (attr : String)
  /-- An error raised by the MySQL driver. -/
  | mysqlError (msg : String)
  deriving DecidableEq, Repr

/-- One result row as the driver reports it: the cells in column order,
each tagged with its column name.  A `DictCursor` presents such a row as a
column-name-to-value mapping; a plain `Cursor` presents only the values as
a positional tuple. -/
abbrev Row := List (String × PyScalar)

/-- The connection object returned by `MySQLdb.Connect`: its observable
behaviour.  `resultSet stmt args` is the rows a cursor fetches after
executing `stmt` with `args`; `warning stmt args` is the text of the
`MySQLdb.Warning` the driver raises during that execution, if any;
`rowcount stmt args` is what `cursor.rowcount` reports afterwards (for a
statement interrupted by a warning, the partially-applied count);
`affectedRowsCount` is the integer the driver method `affected_rows()`
returns when called — per the MySQLdb API `affected_rows` is a method of
the connection object, so plain attribute access on it yields the bound
method, not the count. -/
structure Handle where
  id : Nat
  resultSet : String → Args → List Row
  warning : String → Args → Option String
  rowcount : String → Args → Int
  affectedRowsCount : Int

/-- The keyword-argument dict built by the factories and passed to
`MySQLdb.Connect`.  `unix_socket`/`host` is present in exactly one of the
two factories; the `charset` key is present only when the factory put it
there. -/
structure ConnectionConfig where
  user : String
  passwd : String
  unix_socket : Option String
  host : Option String
  db : String
  use_unicode : Bool
  connect_timeout : Int
  charset : Option String
  deriving DecidableEq, Repr

/-- A side effect a factory performs on the driver, in order. -/
inductive Action where
  /-- the `MySQLdb.Connect(**connection_config)` call -/
  | mysqlConnectCall (cfg : ConnectionConfig)
  /-- `dbh.autocommit(flag)` -/
  | autocommit (flag : Bool)
  /-- `cursor.execute(stmt, args)` on a cursor of the new handle -/
  | cursorExecute (stmt : String) (args : Args)
  deriving Repr

/-- The external world: what `MySQLdb.Connect` does for a given
configuration (returns a live handle, or raises). -/
structure World where
  mysqlConnect : ConnectionConfig → Except PyErr Handle

/-- Python truthiness of an optional string: `None` and `""` are falsy. -/
def pyTruthyStr : Option String → Bool
  | none => false
  | some s => s != ""

/-- What a successful factory run produces: the new handle, the
configuration it passed to `MySQLdb.Connect`, and the ordered trace of
driver side effects it performed before returning the handle. -/
structure FactoryResult where
  dbh : Handle
  config : ConnectionConfig
  actions : List Action

/-- Embeds `default_get_mysql_connection` (db.py lines 26-51): build the
config dict (with `unix_socket`, `use_unicode=True`, and `charset` only if
truthy), call `MySQLdb.Connect`, enable autocommit, and if `timeout` is
truthy (non-zero) execute `SET SESSION WAIT_TIMEOUT = %s` with
`(timeout,)` before returning the handle. -/
def default_get_mysql_connection (w : World) (user_name user_pass socket dbname : String)
    (timeout connect_timeout : Int) (charset : Option String) :
    Except PyErr FactoryResult :=
  let connection_config : ConnectionConfig :=
    { user := user_name
      passwd := user_pass
      unix_socket := some socket
      host := none
      db := dbname
      use_unicode := true
      connect_timeout := connect_timeout
      charset := if pyTruthyStr charset then charset else none }
  match w.mysqlConnect connection_config with
  | .error e => .error e
  | .ok dbh =>
      let base := [Action.mysqlConnectCall connection_config, Action.autocommit true]
      let acts :=
        if timeout ≠ 0 then
          base ++ [Action.cursorExecute "SET SESSION WAIT_TIMEOUT = %s" (some [PyScalar.int timeout])]
        else base
      .ok { dbh := dbh, config := connection_config, actions := acts }

/-- Embeds `tcp_get_mysql_connection` (db.py lines 54-79): identical to the
socket factory except the config carries `host` instead of `unix_socket`. -/
def tcp_get_mysql_connection (w : World) (user_name user_pass host dbname : String)
    (timeout connect_timeout : Int) (charset : Option String) :
    Except PyErr FactoryResult :=
  let connection_config : ConnectionConfig :=
    { user := user_name
      passwd := user_pass
      unix_socket := none
      host := some host
      db := dbname
      use_unicode := true
      connect_timeout := connect_timeout
      charset := if pyTruthyStr charset then charset else none }
  match w.mysqlConnect connection_config with
  | .error e => .error e
  | .ok dbh =>
      let base := [Action.mysqlConnectCall connection_config, Action.autocommit true]
      let acts :=
        if timeout ≠ 0 then
          base ++ [Action.cursorExecute "SET SESSION WAIT_TIMEOUT = %s" (some [PyScalar.int timeout])]
        else base
      .ok { dbh := dbh, config := connection_config, actions := acts }

/-- The type of `connect_function` as `connect()` applies it:
`self.connect_function(self.user, self.password, self.socket-or-host,
self.db, connect_timeout=..., charset=...)`.  The `timeout` parameter of
the default factories is not passed, so it keeps its default 60.  Only the
returned handle is used by `connect()`. -/
abbrev ConnectFunction :=
  World → String → String → String → String → Int → Option String → Except PyErr Handle

/-- `default_get_mysql_connection` as a `ConnectFunction` (its Python
default arguments `timeout=60` in force, since `connect()` does not pass
`timeout`). -/
def default_connect_function : ConnectFunction :=
  fun w u p sock db ct cs =>
    (default_get_mysql_connection w u p sock db 60 ct cs).map FactoryResult.dbh

/-- `tcp_get_mysql_connection` as a `ConnectFunction` (its Python default
arguments `timeout=60` in force, since `connect()` does not pass
`timeout`). -/
def tcp_connect_function : ConnectFunction :=
  fun w u p host db ct cs =>
    (tcp_get_mysql_connection w u p host db 60 ct cs).map FactoryResult.dbh

/-- The instance state of a `MySQLSocketConnection` / `MySQLTCPConnection`
object (class hierarchy flattened): the fields both `__init__` methods
assign.  `endpoint` is `self.socket` for the socket variant and
`self.host` for the TCP variant; `conn` is the live handle or `None`. -/
structure ConnState where
  conn : Option Handle
  query_header : String
  user : String
  password : String
  db : String
  endpoint : String
  connect_timeout : Int
  charset : Option String
  connect_function : ConnectFunction
  connection_id : Option Int

/-- The header string `set_query_header` computes:
`"/\x2a {} \x2a/".format(":".join((sys.argv[0], os.path.basename(__file__))))`,
from the invoking program identity (`argv0`) and the module file basename. -/
def set_query_header_value (argv0 fileBasename : String) : String :=
  "/* " ++ (String.intercalate ":" [argv0, fileBasename]) ++ " */"

/-- Embeds `MySQLBaseConnection.set_query_header` (db.py lines 175-177):
store the computed header on the instance. -/
def MySQLBaseConnection.set_query_header (argv0 fileBasename : String) (s : ConnState) :
    ConnState :=
  { s with query_header := set_query_header_value argv0 fileBasename }

/-- Embeds `MySQLSocketConnection.__init__` (db.py lines 185-200): store
the credentials and socket, `self.conn = None`, keep the given
`connect_function` if one was provided and otherwise
`default_get_mysql_connection`, then `self.set_query_header()`. -/
def MySQLSocketConnection.mk (argv0 fileBasename user password socket dbname : String)
    (connect_timeout : Int) (connect_function : Option ConnectFunction)
    (charset : Option String) : ConnState :=
  MySQLBaseConnection.set_query_header argv0 fileBasename
    { conn := none
      query_header := ""
      user := user
      password := password
      db := dbname
      endpoint := socket
      connect_timeout := connect_timeout
      charset := charset
      connect_function :=
        match connect_function with
        | some f => f
        | none => default_connect_function
      connection_id := none }

/-- Embeds `MySQLTCPConnection.__init__` (db.py lines 221-233): store the
credentials and host, `self.conn = None`, and — as the source does —
assign `self.connect_function = tcp_get_mysql_connection` unconditionally,
leaving the `connect_function` argument unused; then
`self.set_query_header()`. -/
def MySQLTCPConnection.mk (argv0 fileBasename user password host dbname : String)
    (connect_timeout : Int) (connect_function : Option ConnectFunction)
    (charset : Option String) : ConnState :=
  MySQLBaseConnection.set_query_header argv0 fileBasename
    { conn := none
      query_header := ""
      user := user
      password := password
      db := dbname
      endpoint := host
      connect_timeout := connect_timeout
      charset := charset
      connect_function := tcp_connect_function
      connection_id := none }

/-- Embeds `MySQLSocketConnection.connect` (db.py lines 202-213):
`self.conn = self.connect_function(self.user, self.password, self.socket,
self.db, connect_timeout=self.connect_timeout, charset=self.charset)`.
The Python method body has no `return`, so on success the call returns
`None`; a factory exception propagates. -/
def MySQLSocketConnection.connect (w : World) (s : ConnState) :
    Except PyErr (ConnState × PyValue) :=
  match s.connect_function w s.user s.password s.endpoint s.db s.connect_timeout s.charset with
  | .error e => .error e
  | .ok dbh => .ok ({ s with conn := some dbh }, PyValue.pynone)

/-- Embeds `MySQLTCPConnection.connect` (db.py lines 235-246): same body
as the socket variant, with `self.host` in place of `self.socket`. -/
def MySQLTCPConnection.connect (w : World) (s : ConnState) :
    Except PyErr (ConnState × PyValue) :=
  match s.connect_function w s.user s.password s.endpoint s.db s.connect_timeout s.charset with
  | .error e => .error e
  | .ok dbh => .ok ({ s with conn := some dbh }, PyValue.pynone)

/-- A direct operation on the driver handle performed by a wrapper method
(recorded so that frame/no-op facts are observable). -/
inductive HandleOp where
  /-- `self.conn.close()` on the handle with this id -/
  | close (id : Nat)
  deriving DecidableEq, Repr

/-- Embeds `MySQLBaseConnection.disconnect` (db.py lines 93-97): if
`self.conn` is truthy, close it and set `self.conn = None`; otherwise do
nothing.  Never raises.  Returns the new state and the handle operations
performed. -/
def MySQLBaseConnection.disconnect (s : ConnState) : ConnState × List HandleOp :=
  match s.conn with
  | some h => ({ s with conn := none }, [HandleOp.close h.id])
  | none => (s, [])

/-- Embeds `MySQLBaseConnection.close` (db.py lines 172-173):
`self.conn.close()` — closes the handle without touching any instance
field; raises `AttributeError` when `self.conn` is `None`. -/
def MySQLBaseConnection.close (s : ConnState) :
    Except PyErr (ConnState × List HandleOp) :=
  match s.conn with
  | none => .error (PyErr.attributeErrorNone "close")
  | some h => .ok (s, [HandleOp.close h.id])

/-- Embeds `MySQLBaseConnection.query` (db.py lines 121-127): a
`DictCursor` executes `"%s %s" % (self.query_header, sql)` with `args`
and `fetchall()` returns the rows as column-name-to-value mappings.
Raises `AttributeError` when `self.conn` is `None`. -/
def MySQLBaseConnection.query (s : ConnState) (sql : String) (args : Args) :
    Except PyErr (List Row) :=
  match s.conn with
  | none => .error (PyErr.attributeErrorNone "cursor")
  | some h => .ok (h.resultSet (s.query_header ++ " " ++ sql) args)

/-- Embeds `MySQLBaseConnection.query_array` (db.py lines 129-135): a
plain `Cursor` executes the same `"%s %s" % (self.query_header, sql)`
with `args` and `fetchall()` returns the rows as positional tuples (the
cell values without column names). -/
def MySQLBaseConnection.query_array (s : ConnState) (sql : String) (args : Args) :
    Except PyErr (List (List PyScalar)) :=
  match s.conn with
  | none => .error (PyErr.attributeErrorNone "cursor")
  | some h =>
      .ok ((h.resultSet (s.query_header ++ " " ++ sql) args).map (fun r => r.map Prod.snd))

/-- How Python `str` renders an args value inside the warning log line:
`None`, or the tuple of scalars. -/
def argsRepr : Args → String
  | none => "None"
  | some l => "(" ++ String.intercalate ", " (l.map (fun v =>
      match v with
      | PyScalar.int n => toString n
      | PyScalar.str s => s)) ++ ")"

/-- A log record emitted through the module logger. -/
structure LogEntry where
  level : String
  message : String
  deriving DecidableEq, Repr

/-- Embeds `MySQLBaseConnection.execute` (db.py lines 137-153): driver
warnings are turned into exceptions; the cursor executes the
header-prefixed statement; a raised `Warning` is caught and logged once at
WARNING level with the warning text, the sql text and the args, and is not
re-raised; in all cases `cursor.rowcount` is returned.  Returns the row
count and the log entries produced. -/
def MySQLBaseConnection.execute (s : ConnState) (sql : String) (args : Args) :
    Except PyErr (Int × List LogEntry) :=
  match s.conn with
  | none => .error (PyErr.attributeErrorNone "cursor")
  | some h =>
      let stmt := s.query_header ++ " " ++ sql
      match h.warning stmt args with
      | some wtext =>
          .ok (h.rowcount stmt args,
            [{ level := "WARNING"
               message := "MySQL warning: " ++ wtext ++ ", when executing sql: " ++ sql
                 ++ ", args: " ++ argsRepr args }])
      | none => .ok (h.rowcount stmt args, [])

/-- Embeds `MySQLBaseConnection.affected_rows` (db.py lines 114-119):
`return self.conn.affected_rows` — a plain attribute access, without a
call.  In the MySQLdb API `affected_rows` is a method of the connection
object, so the attribute access yields the bound method (which would
return `affectedRowsCount` if called), not the integer. -/
def MySQLBaseConnection.affected_rows (s : ConnState) : Except PyErr PyValue :=
  match s.conn with
  | none => .error (PyErr.attributeErrorNone "affected_rows")
  | some h => .ok (PyValue.boundMethod h.affectedRowsCount)

/-- A state-changing wrapper operation, for invariants over arbitrary
call sequences.  Query-class calls do not change the instance state, so
`connect`, `disconnect` and `close` are the operations to track. -/
inductive Op where
  | connectS
  | connectT
  | disconnect
  | close
  deriving DecidableEq, Repr

/-- Run one operation on the instance state (a raising operation leaves
the state as it was). -/
def stepOp (w : World) (s : ConnState) : Op → ConnState
  | Op.connectS =>
      match MySQLSocketConnection.connect w s with
      | .ok r => r.1
      | .error _ => s
  | Op.connectT =>
      match MySQLTCPConnection.connect w s with
      | .ok r => r.1
      | .error _ => s
  | Op.disconnect => (MySQLBaseConnection.disconnect s).1
  | Op.close =>
      match MySQLBaseConnection.close s with
      | .ok r => r.1
      | .error _ => s

/-- Run a sequence of operations on the instance state. -/
def runOps (w : World) (s : ConnState) : List Op → ConnState
  | [] => s
  | op :: rest => runOps w (stepOp w s op) rest

/-! Concrete fixtures used by witnesses and counterexamples. -/

/-- A concrete driver handle: two result rows, a warning on every
statement, row count 3, affected-row count 7. -/
def testHandle : Handle :=
  { id := 7
    resultSet := fun _ _ =>
      [[("a", PyScalar.int 1), ("b", PyScalar.str "x")],
       [("a", PyScalar.int 2), ("b", PyScalar.str "y")]]
    warning := fun _ _ => some "Data truncated for column"
    rowcount := fun _ _ => 3
    affectedRowsCount := 7 }

/-- A concrete driver handle that never raises a warning. -/
def quietHandle : Handle :=
  { id := 8
    resultSet := testHandle.resultSet
    warning := fun _ _ => none
    rowcount := fun _ _ => 3
    affectedRowsCount := 7 }

/-- A concrete handle distinguishable from `testHandle`, returned by the
custom factory below. -/
def customHandle : Handle :=
  { id := 42
    resultSet := fun _ _ => []
    warning := fun _ _ => none
    rowcount := fun _ _ => 0
    affectedRowsCount := 0 }

/-- A world in which `MySQLdb.Connect` always succeeds with `testHandle`. -/
def testWorld : World := { mysqlConnect := fun _ => Except.ok testHandle }

/-- A world in which `MySQLdb.Connect` always raises. -/
def failWorld : World :=
  { mysqlConnect := fun _ => Except.error (PyErr.mysqlError "cannot connect") }

/-- A user-supplied `connect_function` that ignores its arguments and
returns `customHandle`. -/
def customConnectFunction : ConnectFunction :=
  fun _ _ _ _ _ _ _ => Except.ok customHandle

/-- A freshly constructed socket-variant instance with the default
factory. -/
def sockTestState : ConnState :=
  MySQLSocketConnection.mk "osc_cli" "db.py" "scott" "tiger" "/var/run/mysqld.sock" "test"
    10 none none

/-- A socket-variant instance handed a custom `connect_function` at
construction. -/
def sockCustomState : ConnState :=
  MySQLSocketConnection.mk "osc_cli" "db.py" "scott" "tiger" "/var/run/mysqld.sock" "test"
    10 (some customConnectFunction) none

/-- A TCP-variant instance handed a custom `connect_function` at
construction. -/
def tcpCustomState : ConnState :=
  MySQLTCPConnection.mk "osc_cli" "db.py" "scott" "tiger" "db.example.com" "test"
    10 (some customConnectFunction) none

/-- A freshly constructed TCP-variant instance. -/
def tcpTestState : ConnState :=
  MySQLTCPConnection.mk "osc_cli" "db.py" "scott" "tiger" "db.example.com" "test"
    10 none none

/-- `sockTestState` after a handle was stored (as `connect` would with
`testWorld`). -/
def connectedTestState : ConnState :=
  { sockTestState with conn := some testHandle }

/-- `sockTestState` holding the warning-free handle. -/
def connectedQuietState : ConnState :=
  { sockTestState with conn := some quietHandle }

/-! Claim theorems. -/

/-- C1: if the driver raises a warning during `execute(sql, args)`, the
warning is caught and not re-raised — exactly one WARNING-level log entry
containing the warning text, the statement text and the args is produced,
and the call returns normally with the cursor's row count; if no warning
is raised, no log entry is produced. -/
theorem execute_warning_logged_and_suppressed (s : ConnState) (h : Handle)
    (sql : String) (args : Args) (hc : s.conn = some h) :
    (∀ w, h.warning (s.query_header ++ " " ++ sql) args = some w →
      ∃ entry : LogEntry,
        MySQLBaseConnection.execute s sql args
          = Except.ok (h.rowcount (s.query_header ++ " " ++ sql) args, [entry])
        ∧ entry.level = "WARNING"
        ∧ (∃ a b, entry.message = a ++ w ++ b)
        ∧ (∃ a b, entry.message = a ++ sql ++ b)
        ∧ (∃ a b, entry.message = a ++ argsRepr args ++ b))
    ∧ (h.warning (s.query_header ++ " " ++ sql) args = none →
        MySQLBaseConnection.execute s sql args
          = Except.ok (h.rowcount (s.query_header ++ " " ++ sql) args, [])) := by
  constructor
  · intro w hw
    refine ⟨{ level := "WARNING"
              message := "MySQL warning: " ++ w ++ ", when executing sql: " ++ sql
                ++ ", args: " ++ argsRepr args }, ?_, rfl, ?_, ?_, ?_⟩
    · simp only [MySQLBaseConnection.execute, hc, hw]
    · exact ⟨"MySQL warning: ",
        ", when executing sql: " ++ sql ++ ", args: " ++ argsRepr args,
        by simp [String.append_assoc]⟩
    · exact ⟨"MySQL warning: " ++ w ++ ", when executing sql: ",
        ", args: " ++ argsRepr args, by simp [String.append_assoc]⟩
    · exact ⟨"MySQL warning: " ++ w ++ ", when executing sql: " ++ sql ++ ", args: ",
        "", by simp [String.append_assoc]⟩
  · intro hw
    simp only [MySQLBaseConnection.execute, hc, hw]

/-- Witness for C1 at a concrete connected state: `testHandle` always
warns, `quietHandle` never does. -/
theorem execute_warning_logged_and_suppressed_witness :
    connectedTestState.conn = some testHandle
    ∧ ((∀ w, testHandle.warning (connectedTestState.query_header ++ " " ++ "SELECT 1") none
          = some w →
        ∃ entry : LogEntry,
          MySQLBaseConnection.execute connectedTestState "SELECT 1" none
            = Except.ok
                (testHandle.rowcount (connectedTestState.query_header ++ " " ++ "SELECT 1") none,
                 [entry])
          ∧ entry.level = "WARNING"
          ∧ (∃ a b, entry.message = a ++ w ++ b)
          ∧ (∃ a b, entry.message = a ++ "SELECT 1" ++ b)
          ∧ (∃ a b, entry.message = a ++ argsRepr none ++ b))
      ∧ (testHandle.warning (connectedTestState.query_header ++ " " ++ "SELECT 1") none = none →
          MySQLBaseConnection.execute connectedTestState "SELECT 1" none
            = Except.ok
                (testHandle.rowcount (connectedTestState.query_header ++ " " ++ "SELECT 1") none,
                 []))) :=
  ⟨rfl, execute_warning_logged_and_suppressed connectedTestState testHandle "SELECT 1" none rfl⟩

/-- C2 counterexample: a TCP-variant instance constructed with a custom
`connect_function` (which returns `customHandle`, id 42) nevertheless
stores the handle produced by the default TCP factory (id 7) on
`connect()` — the constructor argument is ignored. -/
theorem tcp_connect_function_ignored_cex :
    customConnectFunction testWorld "scott" "tiger" "db.example.com" "test" 10 none
      = Except.ok customHandle
    ∧ customHandle.id = 42
    ∧ (MySQLTCPConnection.connect testWorld tcpCustomState).map
        (fun r => r.1.conn.map Handle.id) = Except.ok (some 7) :=
  ⟨rfl, rfl, rfl⟩

/-- C2 (amended): the socket variant stores the constructor-provided
`connect_function` when one is given and its default factory otherwise;
the TCP variant always stores its default factory, ignoring the
constructor argument; on both variants `connect()` applies the stored
factory to the stored configuration and stores the returned handle as the
live handle. -/
theorem connect_dispatch_amended (w : World)
    (a f u pw ep d : String) (ct : Int) (cf : ConnectFunction) (cs : Option String) :
    ((MySQLSocketConnection.mk a f u pw ep d ct (some cf) cs).connect_function = cf
      ∧ (MySQLSocketConnection.mk a f u pw ep d ct none cs).connect_function
          = default_connect_function
      ∧ (MySQLTCPConnection.mk a f u pw ep d ct (some cf) cs).connect_function
          = tcp_connect_function
      ∧ (MySQLTCPConnection.mk a f u pw ep d ct none cs).connect_function
          = tcp_connect_function)
    ∧ (∀ (s : ConnState) (dbh : Handle),
        s.connect_function w s.user s.password s.endpoint s.db s.connect_timeout s.charset
          = Except.ok dbh →
        MySQLSocketConnection.connect w s
            = Except.ok ({ s with conn := some dbh }, PyValue.pynone)
        ∧ MySQLTCPConnection.connect w s
            = Except.ok ({ s with conn := some dbh }, PyValue.pynone)) := by
  refine ⟨⟨rfl, rfl, rfl, rfl⟩, ?_⟩
  intro s dbh hfac
  constructor <;>
    simp only [MySQLSocketConnection.connect, MySQLTCPConnection.connect, hfac]

/-- Witness for C2 (amended) at a socket instance carrying a custom
factory. -/
theorem connect_dispatch_amended_witness :
    sockCustomState.connect_function testWorld sockCustomState.user sockCustomState.password
        sockCustomState.endpoint sockCustomState.db sockCustomState.connect_timeout
        sockCustomState.charset = Except.ok customHandle
    ∧ MySQLSocketConnection.connect testWorld sockCustomState
        = Except.ok ({ sockCustomState with conn := some customHandle }, PyValue.pynone)
    ∧ MySQLTCPConnection.connect testWorld sockCustomState
        = Except.ok ({ sockCustomState with conn := some customHandle }, PyValue.pynone) := by
  have h := (connect_dispatch_amended testWorld "osc_cli" "db.py" "scott" "tiger"
      "/var/run/mysqld.sock" "test" 10 customConnectFunction none).2
      sockCustomState customHandle rfl
  exact ⟨rfl, h.1, h.2⟩

/-- C3: `query` and `query_array` send the identical header-prefixed
statement and identical args to the handle and return the same rows in
the same order — `query` as column-name-to-value mappings, `query_array`
as positional tuples. -/
theorem query_query_array_agree (s : ConnState) (h : Handle)
    (sql : String) (args : Args) (hc : s.conn = some h) :
    MySQLBaseConnection.query s sql args
      = Except.ok (h.resultSet (s.query_header ++ " " ++ sql) args)
    ∧ MySQLBaseConnection.query_array s sql args
      = Except.ok ((h.resultSet (s.query_header ++ " " ++ sql) args).map
          (fun r => r.map Prod.snd))
    ∧ ∀ dictRows arrRows,
        MySQLBaseConnection.query s sql args = Except.ok dictRows →
        MySQLBaseConnection.query_array s sql args = Except.ok arrRows →
        arrRows = dictRows.map (fun r => r.map Prod.snd)
        ∧ arrRows.length = dictRows.length := by
  refine ⟨by simp [MySQLBaseConnection.query, hc],
          by simp [MySQLBaseConnection.query_array, hc], ?_⟩
  intro dictRows arrRows hq hqa
  simp only [MySQLBaseConnection.query, hc, Except.ok.injEq] at hq
  simp only [MySQLBaseConnection.query_array, hc, Except.ok.injEq] at hqa
  subst hq
  subst hqa
  exact ⟨rfl, by simp⟩

/-- Witness for C3 at a concrete connected state. -/
theorem query_query_array_agree_witness :
    connectedTestState.conn = some testHandle
    ∧ (MySQLBaseConnection.query connectedTestState "SELECT 1" none
        = Except.ok (testHandle.resultSet
            (connectedTestState.query_header ++ " " ++ "SELECT 1") none)
      ∧ MySQLBaseConnection.query_array connectedTestState "SELECT 1" none
        = Except.ok ((testHandle.resultSet
            (connectedTestState.query_header ++ " " ++ "SELECT 1") none).map
              (fun r => r.map Prod.snd))
      ∧ ∀ dictRows arrRows,
          MySQLBaseConnection.query connectedTestState "SELECT 1" none = Except.ok dictRows →
          MySQLBaseConnection.query_array connectedTestState "SELECT 1" none
              = Except.ok arrRows →
          arrRows = dictRows.map (fun r => r.map Prod.snd)
          ∧ arrRows.length = dictRows.length) :=
  ⟨rfl, query_query_array_agree connectedTestState testHandle "SELECT 1" none rfl⟩

/-- C4: after `connect()` followed by `disconnect()`, the instance holds
no handle; `query`, `query_array` and `execute` all fail with the
no-handle error (the embedded IllegalStateError-class condition) instead
of touching a stale handle; and a second `connect()` succeeds again,
restoring a usable handle. Holds for both variants. -/
theorem connect_disconnect_connect_cycle (w : World)
    (a f u pw ep d : String) (ct : Int) (cf : Option ConnectFunction) (cs : Option String)
    (sql : String) (args : Args) :
    (∀ s1 v1,
      MySQLSocketConnection.connect w (MySQLSocketConnection.mk a f u pw ep d ct cf cs)
          = Except.ok (s1, v1) →
      (MySQLBaseConnection.disconnect s1).1.conn = none
      ∧ MySQLBaseConnection.query (MySQLBaseConnection.disconnect s1).1 sql args
          = Except.error (PyErr.attributeErrorNone "cursor")
      ∧ MySQLBaseConnection.query_array (MySQLBaseConnection.disconnect s1).1 sql args
          = Except.error (PyErr.attributeErrorNone "cursor")
      ∧ MySQLBaseConnection.execute (MySQLBaseConnection.disconnect s1).1 sql args
          = Except.error (PyErr.attributeErrorNone "cursor")
      ∧ ∃ s3 hdl,
          MySQLSocketConnection.connect w (MySQLBaseConnection.disconnect s1).1
            = Except.ok (s3, PyValue.pynone)
          ∧ s3.conn = some hdl
          ∧ MySQLBaseConnection.query s3 sql args
              = Except.ok (hdl.resultSet (s3.query_header ++ " " ++ sql) args))
    ∧ (∀ s1 v1,
      MySQLTCPConnection.connect w (MySQLTCPConnection.mk a f u pw ep d ct cf cs)
          = Except.ok (s1, v1) →
      (MySQLBaseConnection.disconnect s1).1.conn = none
      ∧ MySQLBaseConnection.query (MySQLBaseConnection.disconnect s1).1 sql args
          = Except.error (PyErr.attributeErrorNone "cursor")
      ∧ MySQLBaseConnection.query_array (MySQLBaseConnection.disconnect s1).1 sql args
          = Except.error (PyErr.attributeErrorNone "cursor")
      ∧ MySQLBaseConnection.execute (MySQLBaseConnection.disconnect s1).1 sql args
          = Except.error (PyErr.attributeErrorNone "cursor")
      ∧ ∃ s3 hdl,
          MySQLTCPConnection.connect w (MySQLBaseConnection.disconnect s1).1
            = Except.ok (s3, PyValue.pynone)
          ∧ s3.conn = some hdl
          ∧ MySQLBaseConnection.query s3 sql args
              = Except.ok (hdl.resultSet (s3.query_header ++ " " ++ sql) args)) := by
  constructor
  · intro s1 v1 hcon
    unfold MySQLSocketConnection.connect at hcon
    split at hcon
    · exact Except.noConfusion hcon
    · rename_i dbh heq
      injection hcon with hpair
      injection hpair with hs hv
      subst hs
      refine ⟨rfl, rfl, rfl, rfl,
        { MySQLSocketConnection.mk a f u pw ep d ct cf cs with conn := some dbh },
        dbh, ?_, rfl, rfl⟩
      unfold MySQLSocketConnection.connect
      dsimp only [MySQLBaseConnection.disconnect]
      rw [heq]
  · intro s1 v1 hcon
    unfold MySQLTCPConnection.connect at hcon
    split at hcon
    · exact Except.noConfusion hcon
    · rename_i dbh heq
      injection hcon with hpair
      injection hpair with hs hv
      subst hs
      refine ⟨rfl, rfl, rfl, rfl,
        { MySQLTCPConnection.mk a f u pw ep d ct cf cs with conn := some dbh },
        dbh, ?_, rfl, rfl⟩
      unfold MySQLTCPConnection.connect
      dsimp only [MySQLBaseConnection.disconnect]
      rw [heq]

/-- Witness for C4: the socket variant against `testWorld`. -/
theorem connect_disconnect_connect_cycle_witness :
    MySQLSocketConnection.connect testWorld sockTestState
        = Except.ok (connectedTestState, PyValue.pynone)
    ∧ ((MySQLBaseConnection.disconnect connectedTestState).1.conn = none
      ∧ MySQLBaseConnection.query (MySQLBaseConnection.disconnect connectedTestState).1
          "SELECT 1" none = Except.error (PyErr.attributeErrorNone "cursor")
      ∧ MySQLBaseConnection.query_array (MySQLBaseConnection.disconnect connectedTestState).1
          "SELECT 1" none = Except.error (PyErr.attributeErrorNone "cursor")
      ∧ MySQLBaseConnection.execute (MySQLBaseConnection.disconnect connectedTestState).1
          "SELECT 1" none = Except.error (PyErr.attributeErrorNone "cursor")
      ∧ ∃ s3 hdl,
          MySQLSocketConnection.connect testWorld
              (MySQLBaseConnection.disconnect connectedTestState).1
            = Except.ok (s3, PyValue.pynone)
          ∧ s3.conn = some hdl
          ∧ MySQLBaseConnection.query s3 "SELECT 1" none
              = Except.ok (hdl.resultSet (s3.query_header ++ " " ++ "SELECT 1") none)) := by
  have h := (connect_disconnect_connect_cycle testWorld "osc_cli" "db.py" "scott" "tiger"
      "/var/run/mysqld.sock" "test" 10 none none "SELECT 1" none).1
      connectedTestState PyValue.pynone rfl
  exact ⟨rfl, h⟩

/-- C5: `disconnect()` closes the handle and additionally clears `conn`
to the no-handle state, modifying no other instance field; `close()`
closes the handle but leaves the instance state — `conn` included —
entirely unchanged. -/
theorem disconnect_close_frame (s : ConnState) (h : Handle) (hc : s.conn = some h) :
    MySQLBaseConnection.disconnect s = ({ s with conn := none }, [HandleOp.close h.id])
    ∧ MySQLBaseConnection.close s = Except.ok (s, [HandleOp.close h.id])
    ∧ (MySQLBaseConnection.disconnect s).1.conn = none
    ∧ (MySQLBaseConnection.disconnect s).1.query_header = s.query_header
    ∧ (MySQLBaseConnection.disconnect s).1.user = s.user
    ∧ (MySQLBaseConnection.disconnect s).1.password = s.password
    ∧ (MySQLBaseConnection.disconnect s).1.db = s.db
    ∧ (MySQLBaseConnection.disconnect s).1.endpoint = s.endpoint
    ∧ (MySQLBaseConnection.disconnect s).1.connect_timeout = s.connect_timeout
    ∧ (MySQLBaseConnection.disconnect s).1.charset = s.charset
    ∧ (MySQLBaseConnection.disconnect s).1.connect_function = s.connect_function
    ∧ (MySQLBaseConnection.disconnect s).1.connection_id = s.connection_id := by
  simp [MySQLBaseConnection.disconnect, MySQLBaseConnection.close, hc]

/-- Witness for C5 at a concrete connected state. -/
theorem disconnect_close_frame_witness :
    connectedTestState.conn = some testHandle
    ∧ (MySQLBaseConnection.disconnect connectedTestState
        = ({ connectedTestState with conn := none }, [HandleOp.close testHandle.id])
      ∧ MySQLBaseConnection.close connectedTestState
        = Except.ok (connectedTestState, [HandleOp.close testHandle.id])
      ∧ (MySQLBaseConnection.disconnect connectedTestState).1.conn = none
      ∧ (MySQLBaseConnection.disconnect connectedTestState).1.query_header
          = connectedTestState.query_header
      ∧ (MySQLBaseConnection.disconnect connectedTestState).1.user = connectedTestState.user
      ∧ (MySQLBaseConnection.disconnect connectedTestState).1.password
          = connectedTestState.password
      ∧ (MySQLBaseConnection.disconnect connectedTestState).1.db = connectedTestState.db
      ∧ (MySQLBaseConnection.disconnect connectedTestState).1.endpoint
          = connectedTestState.endpoint
      ∧ (MySQLBaseConnection.disconnect connectedTestState).1.connect_timeout
          = connectedTestState.connect_timeout
      ∧ (MySQLBaseConnection.disconnect connectedTestState).1.charset
          = connectedTestState.charset
      ∧ (MySQLBaseConnection.disconnect connectedTestState).1.connect_function
          = connectedTestState.connect_function
      ∧ (MySQLBaseConnection.disconnect connectedTestState).1.connection_id
          = connectedTestState.connection_id) :=
  ⟨rfl, disconnect_close_frame connectedTestState testHandle rfl⟩

/-- C6, the code evaluated at the failing input: `affected_rows()` on a
live connection whose driver reports 7 affected rows returns the uncalled
bound-method attribute `self.conn.affected_rows`, not the integer 7 the
docstring promises. -/
theorem affected_rows_returns_bound_method :
    MySQLBaseConnection.affected_rows connectedTestState
      = Except.ok (PyValue.boundMethod 7)
    ∧ testHandle.affectedRowsCount = 7 := ⟨rfl, rfl⟩

/-- The configuration the default factory builds for the witness input
below (charset `utf8` provided and non-empty, so the key is present). -/
def utf8Config : ConnectionConfig :=
  { user := "scott"
    passwd := "tiger"
    unix_socket := some "/var/run/mysqld.sock"
    host := none
    db := "test"
    use_unicode := true
    connect_timeout := 10
    charset := some "utf8" }

/-- The full factory result for the witness input below. -/
def utf8FactoryResult : FactoryResult :=
  { dbh := testHandle
    config := utf8Config
    actions := [Action.mysqlConnectCall utf8Config, Action.autocommit true,
      Action.cursorExecute "SET SESSION WAIT_TIMEOUT = %s" (some [PyScalar.int 60])] }

/-- C7 counterexample: with `charset = some ""` a charset is provided
(the argument is not `None`) yet both factories omit the `charset` key
from the session configuration, because `if charset:` is false for the
empty string. -/
theorem factory_charset_empty_provided_cex :
    (some "" : Option String).isSome = true
    ∧ (default_get_mysql_connection testWorld "scott" "tiger" "/var/run/mysqld.sock" "test"
        60 10 (some "")).map (fun r => r.config.charset) = Except.ok none
    ∧ (tcp_get_mysql_connection testWorld "scott" "tiger" "db.example.com" "test"
        60 10 (some "")).map (fun r => r.config.charset) = Except.ok none :=
  ⟨rfl, rfl, rfl⟩

/-- C7 (amended): both factories call `MySQLdb.Connect`, then enable
autocommit on the new handle, and execute the session-scoped wait-timeout
statement with the given timeout value before returning the handle if and
only if the timeout is non-zero; the charset is included in the session
configuration if and only if a non-empty charset is provided. -/
theorem factory_session_setup_amended (w : World) (u p ep d : String)
    (timeout ct : Int) (cs : Option String) :
    (∀ r, default_get_mysql_connection w u p ep d timeout ct cs = Except.ok r →
      r.actions
        = [Action.mysqlConnectCall r.config, Action.autocommit true]
          ++ (if timeout ≠ 0 then
                [Action.cursorExecute "SET SESSION WAIT_TIMEOUT = %s"
                  (some [PyScalar.int timeout])]
              else [])
      ∧ Action.autocommit true ∈ r.actions
      ∧ ((Action.cursorExecute "SET SESSION WAIT_TIMEOUT = %s"
            (some [PyScalar.int timeout]) ∈ r.actions) ↔ timeout ≠ 0)
      ∧ r.config.charset = (if pyTruthyStr cs then cs else none)
      ∧ ((r.config.charset).isSome = true ↔ pyTruthyStr cs = true))
    ∧ (∀ r, tcp_get_mysql_connection w u p ep d timeout ct cs = Except.ok r →
      r.actions
        = [Action.mysqlConnectCall r.config, Action.autocommit true]
          ++ (if timeout ≠ 0 then
                [Action.cursorExecute "SET SESSION WAIT_TIMEOUT = %s"
                  (some [PyScalar.int timeout])]
              else [])
      ∧ Action.autocommit true ∈ r.actions
      ∧ ((Action.cursorExecute "SET SESSION WAIT_TIMEOUT = %s"
            (some [PyScalar.int timeout]) ∈ r.actions) ↔ timeout ≠ 0)
      ∧ r.config.charset = (if pyTruthyStr cs then cs else none)
      ∧ ((r.config.charset).isSome = true ↔ pyTruthyStr cs = true)) := by
  constructor
  · intro r hr
    simp only [default_get_mysql_connection] at hr
    split at hr
    · exact Except.noConfusion hr
    · rename_i dbh heq
      injection hr with h1
      subst h1
      refine ⟨?_, ?_, ?_, rfl, ?_⟩
      · by_cases ht : timeout ≠ 0 <;> simp [ht]
      · by_cases ht : timeout ≠ 0 <;> simp [ht]
      · by_cases ht : timeout ≠ 0 <;> simp [ht]
      · rcases cs with _ | str0
        · simp [pyTruthyStr]
        · by_cases h0 : str0 = "" <;> simp [pyTruthyStr, h0]
  · intro r hr
    simp only [tcp_get_mysql_connection] at hr
    split at hr
    · exact Except.noConfusion hr
    · rename_i dbh heq
      injection hr with h1
      subst h1
      refine ⟨?_, ?_, ?_, rfl, ?_⟩
      · by_cases ht : timeout ≠ 0 <;> simp [ht]
      · by_cases ht : timeout ≠ 0 <;> simp [ht]
      · by_cases ht : timeout ≠ 0 <;> simp [ht]
      · rcases cs with _ | str0
        · simp [pyTruthyStr]
        · by_cases h0 : str0 = "" <;> simp [pyTruthyStr, h0]

/-- Witness for C7 (amended): timeout 60, charset `utf8`. -/
theorem factory_session_setup_amended_witness :
    default_get_mysql_connection testWorld "scott" "tiger" "/var/run/mysqld.sock" "test"
        60 10 (some "utf8") = Except.ok utf8FactoryResult
    ∧ (utf8FactoryResult.actions
        = [Action.mysqlConnectCall utf8FactoryResult.config, Action.autocommit true]
          ++ (if (60 : Int) ≠ 0 then
                [Action.cursorExecute "SET SESSION WAIT_TIMEOUT = %s"
                  (some [PyScalar.int 60])]
              else [])
      ∧ Action.autocommit true ∈ utf8FactoryResult.actions
      ∧ ((Action.cursorExecute "SET SESSION WAIT_TIMEOUT = %s"
            (some [PyScalar.int 60]) ∈ utf8FactoryResult.actions) ↔ (60 : Int) ≠ 0)
      ∧ utf8FactoryResult.config.charset
          = (if pyTruthyStr (some "utf8") then some "utf8" else none)
      ∧ ((utf8FactoryResult.config.charset).isSome = true
          ↔ pyTruthyStr (some "utf8") = true)) := by
  have h := (factory_session_setup_amended testWorld "scott" "tiger" "/var/run/mysqld.sock"
      "test" 60 10 (some "utf8")).1 utf8FactoryResult (by rfl)
  exact ⟨by rfl, h⟩

/-- One wrapper operation never touches `query_header`. -/
theorem stepOp_query_header (w : World) (s : ConnState) (op : Op) :
    (stepOp w s op).query_header = s.query_header := by
  cases op with
  | connectS =>
      unfold stepOp MySQLSocketConnection.connect
      cases hfac : s.connect_function w s.user s.password s.endpoint s.db s.connect_timeout
          s.charset <;> simp [hfac]
  | connectT =>
      unfold stepOp MySQLTCPConnection.connect
      cases hfac : s.connect_function w s.user s.password s.endpoint s.db s.connect_timeout
          s.charset <;> simp [hfac]
  | disconnect =>
      unfold stepOp MySQLBaseConnection.disconnect
      cases hc : s.conn <;> simp [hc]
  | close =>
      unfold stepOp MySQLBaseConnection.close
      cases hc : s.conn <;> simp [hc]

/-- No sequence of wrapper operations touches `query_header`. -/
theorem runOps_query_header (w : World) (ops : List Op) (s : ConnState) :
    (runOps w s ops).query_header = s.query_header := by
  induction ops generalizing s with
  | nil => rfl
  | cons op rest ih =>
      rw [runOps, ih]
      exact stepOp_query_header w s op

/-- C8: the query header is computed exactly once at construction time
from the invoking program identity, stays unchanged under any sequence of
connect/disconnect/close operations on either variant, and every
statement `query`, `query_array` and `execute` send to the handle is
prefixed with that same stored header — it is never re-computed per
statement. -/
theorem query_header_constant_and_prefixed (w : World)
    (a f u pw ep d : String) (ct : Int) (cf : Option ConnectFunction) (cs : Option String)
    (ops : List Op) :
    (runOps w (MySQLSocketConnection.mk a f u pw ep d ct cf cs) ops).query_header
        = set_query_header_value a f
    ∧ (runOps w (MySQLTCPConnection.mk a f u pw ep d ct cf cs) ops).query_header
        = set_query_header_value a f
    ∧ ∀ (s : ConnState) (h : Handle) (sql : String) (args : Args),
        s.conn = some h →
        MySQLBaseConnection.query s sql args
          = Except.ok (h.resultSet (s.query_header ++ " " ++ sql) args)
        ∧ MySQLBaseConnection.query_array s sql args
          = Except.ok ((h.resultSet (s.query_header ++ " " ++ sql) args).map
              (fun r => r.map Prod.snd))
        ∧ (h.warning (s.query_header ++ " " ++ sql) args = none →
            MySQLBaseConnection.execute s sql args
              = Except.ok (h.rowcount (s.query_header ++ " " ++ sql) args, [])) := by
  refine ⟨?_, ?_, ?_⟩
  · rw [runOps_query_header]; rfl
  · rw [runOps_query_header]; rfl
  · intro s h sql args hc
    exact ⟨by simp [MySQLBaseConnection.query, hc],
           by simp [MySQLBaseConnection.query_array, hc],
           fun hw => by simp [MySQLBaseConnection.execute, hc, hw]⟩

/-- Witness for C8: a connect/disconnect/connect sequence, then the three
query-class calls on a connected state with the warning-free handle. -/
theorem query_header_constant_and_prefixed_witness :
    (runOps testWorld (MySQLSocketConnection.mk "osc_cli" "db.py" "scott" "tiger"
        "/var/run/mysqld.sock" "test" 10 none none)
        [Op.connectS, Op.disconnect, Op.connectS]).query_header
      = set_query_header_value "osc_cli" "db.py"
    ∧ connectedQuietState.conn = some quietHandle
    ∧ (MySQLBaseConnection.query connectedQuietState "SELECT 1" none
        = Except.ok (quietHandle.resultSet
            (connectedQuietState.query_header ++ " " ++ "SELECT 1") none)
      ∧ MySQLBaseConnection.query_array connectedQuietState "SELECT 1" none
        = Except.ok ((quietHandle.resultSet
            (connectedQuietState.query_header ++ " " ++ "SELECT 1") none).map
              (fun r => r.map Prod.snd))
      ∧ (quietHandle.warning (connectedQuietState.query_header ++ " " ++ "SELECT 1") none
            = none →
          MySQLBaseConnection.execute connectedQuietState "SELECT 1" none
            = Except.ok (quietHandle.rowcount
                (connectedQuietState.query_header ++ " " ++ "SELECT 1") none, []))) := by
  have h := query_header_constant_and_prefixed testWorld "osc_cli" "db.py" "scott" "tiger"
      "/var/run/mysqld.sock" "test" 10 none none [Op.connectS, Op.disconnect, Op.connectS]
  exact ⟨h.1, rfl, h.2.2 connectedQuietState quietHandle "SELECT 1" none rfl⟩

/-- C9: `disconnect()` twice in succession never raises (the embedding is
a total function); the second call finds `conn = None`, performs no close
operation on any handle, and leaves the state unchanged; likewise
`disconnect()` on a never-connected instance is a no-op. -/
theorem disconnect_idempotent_no_op (s : ConnState) :
    MySQLBaseConnection.disconnect (MySQLBaseConnection.disconnect s).1
      = ((MySQLBaseConnection.disconnect s).1, ([] : List HandleOp))
    ∧ (s.conn = none → MySQLBaseConnection.disconnect s = (s, ([] : List HandleOp))) := by
  constructor
  · cases hc : s.conn <;> simp [MySQLBaseConnection.disconnect, hc]
  · intro hc
    simp [MySQLBaseConnection.disconnect, hc]

/-- Witness for C9: a never-connected instance (`conn = None`). -/
theorem disconnect_idempotent_no_op_witness :
    sockTestState.conn = none
    ∧ (MySQLBaseConnection.disconnect (MySQLBaseConnection.disconnect sockTestState).1
        = ((MySQLBaseConnection.disconnect sockTestState).1, ([] : List HandleOp))
      ∧ (sockTestState.conn = none →
          MySQLBaseConnection.disconnect sockTestState
            = (sockTestState, ([] : List HandleOp)))) :=
  ⟨rfl, disconnect_idempotent_no_op sockTestState⟩

/-- C10: `connect()` on both variants returns Python `None` regardless of
outcome — on factory success the handle is stored and the call evaluates
to `None` (never a boolean), and on factory failure the exception
propagates with no return value. -/
theorem connect_returns_none (w : World) (s : ConnState) :
    (∀ dbh, s.connect_function w s.user s.password s.endpoint s.db s.connect_timeout s.charset
        = Except.ok dbh →
      MySQLSocketConnection.connect w s
          = Except.ok ({ s with conn := some dbh }, PyValue.pynone)
      ∧ MySQLTCPConnection.connect w s
          = Except.ok ({ s with conn := some dbh }, PyValue.pynone))
    ∧ (∀ e, s.connect_function w s.user s.password s.endpoint s.db s.connect_timeout s.charset
        = Except.error e →
      MySQLSocketConnection.connect w s = Except.error e
      ∧ MySQLTCPConnection.connect w s = Except.error e)
    ∧ (∀ s2 v, MySQLSocketConnection.connect w s = Except.ok (s2, v) → v = PyValue.pynone)
    ∧ (∀ s2 v, MySQLTCPConnection.connect w s = Except.ok (s2, v) → v = PyValue.pynone) := by
  refine ⟨?_, ?_, ?_, ?_⟩
  · intro dbh hfac
    constructor <;>
      simp only [MySQLSocketConnection.connect, MySQLTCPConnection.connect, hfac]
  · intro e hfac
    constructor <;>
      simp only [MySQLSocketConnection.connect, MySQLTCPConnection.connect, hfac]
  · intro s2 v hcon
    unfold MySQLSocketConnection.connect at hcon
    split at hcon
    · exact Except.noConfusion hcon
    · injection hcon with hpair
      injection hpair with hs hv
      exact hv.symm
  · intro s2 v hcon
    unfold MySQLTCPConnection.connect at hcon
    split at hcon
    · exact Except.noConfusion hcon
    · injection hcon with hpair
      injection hpair with hs hv
      exact hv.symm

/-- Witness for C10: success path against `testWorld`, failure path
against `failWorld`. -/
theorem connect_returns_none_witness :
    sockTestState.connect_function testWorld sockTestState.user sockTestState.password
        sockTestState.endpoint sockTestState.db sockTestState.connect_timeout
        sockTestState.charset = Except.ok testHandle
    ∧ MySQLSocketConnection.connect testWorld sockTestState
        = Except.ok ({ sockTestState with conn := some testHandle }, PyValue.pynone)
    ∧ MySQLTCPConnection.connect testWorld sockTestState
        = Except.ok ({ sockTestState with conn := some testHandle }, PyValue.pynone)
    ∧ MySQLSocketConnection.connect failWorld sockTestState
        = Except.error (PyErr.mysqlError "cannot connect") := by
  have h1 := (connect_returns_none testWorld sockTestState).1 testHandle rfl
  have h2 := (connect_returns_none failWorld sockTestState).2.1
      (PyErr.mysqlError "cannot connect") rfl
  exact ⟨rfl, h1.1, h1.2, h2.1⟩

end OSC
